import Mathlib

/-!
Shallow embedding of lukeocodes/go-trump (src/main.go), a single-run bot that
generates a post via a text-generation API, authenticates against Bluesky and
publishes the post.  Network I/O is modelled by treating each HTTP response as
an input (a field of `World`); the observable behaviour of a run is a trace of
events (outbound network calls, log lines, printed lines) together with the
process exit code.  Machine time is modelled as seconds since the Unix epoch
(an `Int`); Go `time.Time` carries nanoseconds, but every comparison and
format in the program is insensitive to sub-second precision except for exact
equality with the cutoff instant, which the model preserves (strict `After`).
-/

namespace GoTrump

/-- Embeds the Go struct `AuthResponse` (fields `accessJwt`, `did`). -/
structure AuthResponse where
  accessJwt : String
  did : String
deriving DecidableEq, Repr

/-- Embeds the Go struct `ErrorResponse` (fields `error`, `message`). -/
structure ErrorResponse where
  error : String
  message : String
deriving DecidableEq, Repr

/-- Result of an HTTP exchange with a Bluesky endpoint, as the program can
observe it: the status code, and the outcomes of attempting to decode the
body as an `AuthResponse` or as an `ErrorResponse` (`none` = JSON decode
fails). -/
structure HttpResult where
  status : Nat
  authBody : Option AuthResponse
  errBody : Option ErrorResponse
deriving DecidableEq, Repr

/-- Result of an HTTP exchange with the OpenAI endpoint: status code, the raw
body as read by `io.ReadAll` (`readOk = false` models a read failure), and the
outcome of decoding the body into the list of `choices[i].message.content`
strings (`none` = JSON decode fails). -/
structure OpenAIResult where
  status : Nat
  body : String
  readOk : Bool
  choices : Option (List String)
deriving DecidableEq, Repr

/-- The inputs of one run: environment variables (`""` = unset, as Go
`os.Getenv` cannot distinguish empty from unset), whether `godotenv.Load`
succeeds, the startup clock reading (the package-level `now = time.Now()`),
the clock reading taken inside `postMessage` (`time.Now().UTC()` there), and
the three HTTP responses (`none` = transport error from `client.Do`). -/
structure World where
  environment : String
  dotenvOk : Bool
  blueskyUsername : String
  blueskyPassword : String
  openaiApiKey : String
  now : Int
  postTime : Int
  openaiResp : Option OpenAIResult
  authResp : Option HttpResult
  postResp : Option HttpResult

/-! ### Calendar arithmetic (Go `time.Date` and `Format`) -/

/-- Days from the Unix epoch to civil date y-m-d (valid for y ≥ 1, m ∈ [1,12]);
embeds the day computation of Go `time.Date(y, m, d, 0, 0, 0, 0, time.UTC)`. -/
def daysFromCivil (y m d : Nat) : Int :=
  let y1 := if m ≤ 2 then y - 1 else y
  let era := y1 / 400
  let yoe := y1 % 400
  let mp := (m + 9) % 12
  let doy := (153 * mp + 2) / 5 + d - 1
  let doe := yoe * 365 + yoe / 4 - yoe / 100 + doy
  ((era * 146097 + doe : Nat) : Int) - 719468

/-- Seconds from the Unix epoch to UTC midnight of y-m-d: the embedding of
`time.Date(y, m, d, 0, 0, 0, 0, time.UTC)`. -/
def timeDate (y m d : Nat) : Int :=
  daysFromCivil y m d * 86400

/-- Month and day-of-month from a day-of-year in the March-based year
(0 = March 1); the table lists the cumulative month lengths
31,30,31,30,31,31,30,31,30,31,31,29.  On the in-range inputs produced by
`civilFromDays` (`doy ≤ 365`) the final clamp is inert. -/
def monthDayOfDoy (doy : Nat) : Nat × Nat :=
  if doy ≤ 30 then (3, doy + 1)
  else if doy ≤ 60 then (4, doy - 30)
  else if doy ≤ 91 then (5, doy - 60)
  else if doy ≤ 121 then (6, doy - 91)
  else if doy ≤ 152 then (7, doy - 121)
  else if doy ≤ 183 then (8, doy - 152)
  else if doy ≤ 213 then (9, doy - 183)
  else if doy ≤ 244 then (10, doy - 213)
  else if doy ≤ 274 then (11, doy - 244)
  else if doy ≤ 305 then (12, doy - 274)
  else if doy ≤ 336 then (1, doy - 305)
  else (2, min (doy - 336) 29)

/-- Civil date (year, month, day) of a day count from the Unix epoch. -/
def civilFromDays (z : Int) : Int × Nat × Nat :=
  let z1 := z + 719468
  let era := Int.fdiv z1 146097
  let doe := (z1 - era * 146097).toNat
  let yoe := (doe - doe / 1460 + doe / 36524 - doe / 146096) / 365
  let doy := doe - (365 * yoe + yoe / 4 - yoe / 100)
  let md := monthDayOfDoy doy
  let y := (yoe : Int) + era * 400
  ((if md.1 ≤ 2 then y + 1 else y), md.1, md.2)

/-- English month name, as used by Go time formatting. -/
def monthName : Nat → String
  | 1 => "January"
  | 2 => "February"
  | 3 => "March"
  | 4 => "April"
  | 5 => "May"
  | 6 => "June"
  | 7 => "July"
  | 8 => "August"
  | 9 => "September"
  | 10 => "October"
  | 11 => "November"
  | 12 => "December"
  | _ => ""

/-- Embeds `now.Format("January 2, 2006")` on an epoch-seconds instant. -/
def formatLong (t : Int) : String :=
  let c := civilFromDays (Int.fdiv t 86400)
  monthName c.2.1 ++ " " ++ toString c.2.2 ++ ", " ++ toString c.1

/-- Left-pad a number to two digits. -/
def pad2 (n : Nat) : String :=
  if n < 10 then "0" ++ toString n else toString n

/-- Left-pad a number to four digits. -/
def pad4 (n : Nat) : String :=
  if n < 10 then "000" ++ toString n
  else if n < 100 then "00" ++ toString n
  else if n < 1000 then "0" ++ toString n
  else toString n

/-- Renders an RFC3339 UTC timestamp from its components. -/
def rfc3339Render (y m d hh mi ss : Nat) : String :=
  pad4 y ++ "-" ++ pad2 m ++ "-" ++ pad2 d ++ "T" ++
    pad2 hh ++ ":" ++ pad2 mi ++ ":" ++ pad2 ss ++ "Z"

/-- Embeds `t.UTC().Format(time.RFC3339)` on an epoch-seconds instant. -/
def formatRFC3339 (t : Int) : String :=
  let c := civilFromDays (Int.fdiv t 86400)
  let s := (Int.emod t 86400).toNat
  rfc3339Render c.1.toNat c.2.1 c.2.2 (s / 3600) (s % 3600 / 60) (s % 60)

/-! ### JSON model for the publish body -/

/-- A fragment of JSON sufficient for the bodies this program marshals:
strings and objects.  Go `json.Marshal` of a `map[string]...` emits keys in
sorted order; the encoder below lists fields in that order, and the decoder
looks fields up by name, so decoding is insensitive to field order. -/
inductive Json where
  | str (s : String)
  | obj (fields : List (String × Json))
deriving Repr

/-- Field lookup by key on a JSON object. -/
def Json.getField (j : Json) (k : String) : Option Json :=
  match j with
  | .obj fs => List.lookup k fs
  | _ => none

/-- View of a JSON value as a string. -/
def Json.asStr (j : Json) : Option String :=
  match j with
  | .str s => some s
  | _ => none

/-- The decoded shape of the record nested inside the publish body. -/
structure PostRecord where
  type : String
  text : String
  createdAt : String
deriving DecidableEq, Repr

/-- The decoded shape of the publish body. -/
structure PostBody where
  repo : String
  collection : String
  record : PostRecord
deriving DecidableEq, Repr

/-- The JSON body `postMessage` marshals: the Go map literal
`{repo, collection, record: {$type, text, createdAt}}`, with keys in the
sorted order Go `json.Marshal` emits for maps. -/
def postBodyJson (did message createdAt : String) : Json :=
  .obj [("collection", .str "app.bsky.feed.post"),
        ("record", .obj [("$type", .str "app.bsky.feed.post"),
                         ("createdAt", .str createdAt),
                         ("text", .str message)]),
        ("repo", .str did)]

/-- Decoding of a publish body, looking each field up by name (the model of
re-decoding the marshalled JSON, insensitive to field order). -/
def decodePostBody (j : Json) : Option PostBody := do
  let repo ← (← j.getField "repo").asStr
  let collection ← (← j.getField "collection").asStr
  let rec ← j.getField "record"
  let ty ← (← rec.getField "$type").asStr
  let text ← (← rec.getField "text").asStr
  let createdAt ← (← rec.getField "createdAt").asStr
  pure ⟨repo, collection, ⟨ty, text, createdAt⟩⟩

/-! ### Observable events -/

/-- One observable event of a run: an outbound network call (to the OpenAI
endpoint, the session-creation endpoint, or the record-creation endpoint), a
fatal log line (`log.Fatal`, which exits non-zero), a non-fatal log line
(`log.Printf`), or a printed line (`fmt.Printf` / `fmt.Println`). -/
inductive Ev where
  | callOpenAI (apiKey prompt : String)
  | callAuth (identifier password : String)
  | callPost (token : String) (body : Json)
  | logFatal (msg : String)
  | logError (msg : String)
  | print (msg : String)

/-- Rank of a network-call event (0 = generation, 1 = session creation,
2 = record creation); `none` for log and print events. -/
def callRank : Ev → Option Nat
  | .callOpenAI _ _ => some 0
  | .callAuth _ _ => some 1
  | .callPost _ _ => some 2
  | _ => none

/-- The kinds of network calls in a trace, in order. -/
def callKinds (t : List Ev) : List Nat :=
  t.filterMap callRank

/-- Whether an event is written to a log or to standard output. -/
def isOutput : Ev → Bool
  | .logFatal _ => true
  | .logError _ => true
  | .print _ => true
  | _ => false

/-- The logged/printed output of a trace (network calls removed). -/
def outputOf (t : List Ev) : List Ev :=
  t.filter isOutput

/-! ### The program -/

/-- The fixed constants of the program. -/
def exitDate : Int := timeDate 2029 1 20

/-- The inauguration threshold used by `getPost`. -/
def inaugurationDate : Int := timeDate 2025 1 20

/-- Template A of `getPost` (the inauguration prompt), with the date string
interpolated by `fmt.Sprintf`. -/
def promptA (dateStr : String) : String :=
  "Today is " ++ dateStr ++
    ". Write a short, encouraging post about how many days are left until Trump\x27s inauguration. Include the exact number of days until " ++
    "January 20th, 2025" ++
    ". Trump is not a good guy. Say something randomly positive to get people through this."

/-- Template B of `getPost` (the term-end prompt), with the date string
interpolated by `fmt.Sprintf`. -/
def promptB (dateStr : String) : String :=
  "Today is " ++ dateStr ++
    ". Write a short, encouraging post about how many days are left of Trump\x27s 2nd term in office. Include the exact number of days until " ++
    "January 20th, 2029" ++
    ". Trump is not a good guy. Say something randomly positive to get people through this."

/-- The prompt `getPost` builds from the startup instant: template A when
`now.Before(inaugurationDate)`, template B otherwise. -/
def buildPrompt (t : Int) : String :=
  if t < inaugurationDate then promptA (formatLong t) else promptB (formatLong t)

/-- Embeds `makeOpenAIRequest`.  The API key is read from the environment and
checked before any request; a transport error (`resp = none`), a non-200
status, an unreadable or undecodable body, and an empty `choices` array are
each distinct errors.  (`json.Marshal` of the request map and
`http.NewRequest` on the constant URL cannot fail and have no error branch
here; the wrapped transport error text is abstracted.) -/
def makeOpenAIRequest (apiKey : String) (resp : Option OpenAIResult)
    (prompt : String) : List Ev × Except String String :=
  if apiKey = "" then
    ([], .error "OPENAI_API_KEY environment variable not set")
  else
    let evs := [Ev.callOpenAI apiKey prompt]
    match resp with
    | none => (evs, .error "request failed")
    | some r =>
      if r.status ≠ 200 then
        if r.readOk then
          (evs, .error ("received non-200 response status: " ++ toString r.status ++
            " - " ++ r.body))
        else
          (evs, .error "failed to read error response body")
      else
        match r.choices with
        | none => (evs, .error "failed to decode response")
        | some [] => (evs, .error "no response choices returned")
        | some (c :: _) => (evs, .ok c)

/-- Embeds `getPost`: build the prompt from the startup instant, call the
generator, and on any generation error log it (non-fatally) and return the
zero-value empty string. -/
def getPost (w : World) : List Ev × String :=
  let r := makeOpenAIRequest w.openaiApiKey w.openaiResp (buildPrompt w.now)
  match r.2 with
  | .error e => (r.1 ++ [Ev.logError ("Error getting AI response: " ++ e)], "")
  | .ok s => (r.1, s)

/-- The error string `authenticate` builds for a non-200 response,
`fmt.Errorf("auth error (%d): %s - %s", status, error, message)`. -/
def authErrMsg (status : Nat) (e m : String) : String :=
  "auth error (" ++ toString status ++ "): " ++ e ++ " - " ++ m

/-- Embeds `authenticate`: POST the credentials to the session-creation
endpoint; on 200 decode `{accessJwt, did}`, print a success line and return
them; on any other status decode `{error, message}` and fail with the status
and both fields, or with a decode error if that body does not decode. -/
def authenticate (resp : Option HttpResult) (identifier password : String) :
    List Ev × Except String AuthResponse :=
  let evs := [Ev.callAuth identifier password]
  match resp with
  | none => (evs, .error "auth request failed")
  | some r =>
    if r.status = 200 then
      match r.authBody with
      | none => (evs, .error "failed to decode auth response")
      | some a => (evs ++ [Ev.print "Authentication successful!"], .ok a)
    else
      match r.errBody with
      | none => (evs, .error "failed to decode error response")
      | some e => (evs, .error (authErrMsg r.status e.error e.message))

/-- The error string `postMessage` builds for a non-200 response. -/
def postErrMsg (status : Nat) (e m : String) : String :=
  "post error (" ++ toString status ++ "): " ++ e ++ " - " ++ m

/-- Embeds `postMessage`: build the record with a `createdAt` taken from a
fresh `time.Now().UTC()` at submission time (`tPost`), POST it with the
bearer token, succeed on 200 and otherwise fail with the decoded
`{error, message}` or a decode error. -/
def postMessage (resp : Option HttpResult) (tPost : Int)
    (accessToken did message : String) : List Ev × Except String Unit :=
  let body := postBodyJson did message (formatRFC3339 tPost)
  let evs := [Ev.callPost accessToken body]
  match resp with
  | none => (evs, .error "post request failed")
  | some r =>
    if r.status = 200 then
      (evs ++ [Ev.print "Post successful!"], .ok ())
    else
      match r.errBody with
      | none => (evs, .error "failed to decode error response")
      | some e => (evs, .error (postErrMsg r.status e.error e.message))

/-- Embeds `main`: load `.env` outside production (fatal on failure), return
silently (exit 0) once `now.After(exitDate)`, generate the post, check the
two Bluesky environment variables (fatal when unset), authenticate (fatal on
error) and publish (fatal on error).  The result is the event trace and the
process exit code (`log.Fatal` exits 1). -/
def main (w : World) : List Ev × Nat :=
  if w.environment ≠ "production" ∧ w.dotenvOk = false then
    ([Ev.logFatal "Error loading .env file"], 1)
  else if exitDate < w.now then
    ([], 0)
  else
    let g := getPost w
    let evs1 := g.1 ++ [Ev.print ("Generated post: " ++ g.2)]
    if w.blueskyUsername = "" then
      (evs1 ++ [Ev.logFatal "BLUESKY_USERNAME environment variable not set"], 1)
    else if w.blueskyPassword = "" then
      (evs1 ++ [Ev.logFatal "BLUESKY_PASSWORD environment variable not set"], 1)
    else
      let a := authenticate w.authResp w.blueskyUsername w.blueskyPassword
      let evs2 := evs1 ++ a.1
      match a.2 with
      | .error e => (evs2 ++ [Ev.logFatal ("Authentication failed: " ++ e)], 1)
      | .ok ar =>
        let p := postMessage w.postResp w.postTime ar.accessJwt ar.did g.2
        let evs3 := evs2 ++ p.1
        match p.2 with
        | .error e => (evs3 ++ [Ev.logFatal ("Failed to post message: " ++ e)], 1)
        | .ok _ => (evs3 ++ [Ev.print "Message posted successfully!"], 0)

/-! ### Concrete runs used by witnesses and counterexamples -/

/-- A successful OpenAI exchange returning one completion. -/
def okOpenAI : OpenAIResult := ⟨200, "", true, some ["5 days until the event. Stay strong #TheFinalTrumpDown"]⟩

/-- A successful authentication exchange. -/
def okAuth : HttpResult := ⟨200, some ⟨"jwt-token", "did:plc:abc"⟩, none⟩

/-- A successful publish exchange. -/
def okPost : HttpResult := ⟨200, none, none⟩

/-- A run starting exactly at the cutoff instant, with everything configured
to succeed. -/
def wBoundary : World :=
  ⟨"production", true, "alice", "hunter2", "sk-key", timeDate 2029 1 20,
    timeDate 2029 1 20, some okOpenAI, some okAuth, some okPost⟩

/-- A development run on 2030-01-01 whose `.env` load fails. -/
def wEnvFail : World :=
  ⟨"", false, "alice", "hunter2", "sk-key", timeDate 2030 1 1,
    timeDate 2030 1 1, some okOpenAI, some okAuth, some okPost⟩

/-- A production run on 2029-01-21, past the cutoff. -/
def wRetired : World :=
  ⟨"production", true, "alice", "hunter2", "sk-key", timeDate 2029 1 21,
    timeDate 2029 1 21, some okOpenAI, some okAuth, some okPost⟩

/-- A run with the text-generation API key unset and everything else
configured to succeed, on 2024-06-01. -/
def wNoAIKey : World :=
  ⟨"production", true, "alice", "hunter2", "", timeDate 2024 6 1,
    timeDate 2024 6 1, none, some okAuth, some okPost⟩

/-- A run with the account identifier unset and the API key set. -/
def wNoUser : World :=
  ⟨"production", true, "", "hunter2", "sk-key", timeDate 2024 6 1,
    timeDate 2024 6 1, some okOpenAI, some okAuth, some okPost⟩

/-- A run with both the account identifier and the API key unset. -/
def wNoUserNoKey : World :=
  ⟨"production", true, "", "hunter2", "", timeDate 2024 6 1,
    timeDate 2024 6 1, none, some okAuth, some okPost⟩

/-- A run whose generation fails (API key unset) but whose authentication
and publication succeed. -/
def wGenFail : World :=
  ⟨"production", true, "alice", "hunter2", "", timeDate 2024 6 1,
    timeDate 2024 6 1, none, some okAuth, some okPost⟩

/-- Scenario 3 of the spec: authentication answers 401 with
`{error: InvalidCredentials, message: bad password}`. -/
def wAuth401 : World :=
  ⟨"production", true, "alice", "hunter2", "sk-key", timeDate 2026 3 15,
    timeDate 2026 3 15, some okOpenAI,
    some ⟨401, none, some ⟨"InvalidCredentials", "bad password"⟩⟩, some okPost⟩

/-- A successful run with one pair of credentials. -/
def wCredsA : World :=
  ⟨"production", true, "alice", "hunter2", "sk-key", timeDate 2024 6 1,
    timeDate 2024 6 1, some okOpenAI, some okAuth, some okPost⟩

/-- The same run as `wCredsA` but with different credential values. -/
def wCredsB : World :=
  ⟨"production", true, "bob", "letmein", "sk-key", timeDate 2024 6 1,
    timeDate 2024 6 1, some okOpenAI, some okAuth, some okPost⟩

end GoTrump

namespace GoTrump

/-! ### Helper lemmas on traces -/

theorem callKinds_append (a b : List Ev) :
    callKinds (a ++ b) = callKinds a ++ callKinds b :=
  List.filterMap_append a b callRank

theorem outputOf_append (a b : List Ev) :
    outputOf (a ++ b) = outputOf a ++ outputOf b :=
  List.filter_append a b

theorem makeOpenAIRequest_fst (k : String) (resp : Option OpenAIResult) (p : String) :
    (makeOpenAIRequest k resp p).1 = if k = "" then [] else [Ev.callOpenAI k p] := by
  unfold makeOpenAIRequest
  split
  · rfl
  · rcases resp with _ | ⟨st, body, rok, ch⟩
    · rfl
    · dsimp only
      split
      · split <;> rfl
      · rcases ch with _ | ⟨_ | ⟨c, cs⟩⟩ <;> rfl

theorem getPost_fst (w : World) :
    (getPost w).1 = (makeOpenAIRequest w.openaiApiKey w.openaiResp (buildPrompt w.now)).1 ∨
    ∃ e, (getPost w).1 =
      (makeOpenAIRequest w.openaiApiKey w.openaiResp (buildPrompt w.now)).1 ++
        [Ev.logError ("Error getting AI response: " ++ e)] := by
  rcases h : (makeOpenAIRequest w.openaiApiKey w.openaiResp (buildPrompt w.now)).2 with e | s
  · exact Or.inr ⟨e, by simp only [getPost, h]⟩
  · exact Or.inl (by simp only [getPost, h])

theorem callKinds_getPost (w : World) :
    callKinds (getPost w).1 = [] ∨ callKinds (getPost w).1 = [0] := by
  have hm : callKinds (makeOpenAIRequest w.openaiApiKey w.openaiResp (buildPrompt w.now)).1 = [] ∨
      callKinds (makeOpenAIRequest w.openaiApiKey w.openaiResp (buildPrompt w.now)).1 = [0] := by
    rw [makeOpenAIRequest_fst]
    split
    · exact Or.inl rfl
    · exact Or.inr rfl
  rcases getPost_fst w with h | ⟨e, h⟩
  · rw [h]; exact hm
  · rw [h, callKinds_append]
    rcases hm with hm | hm <;> rw [hm] <;> [exact Or.inl rfl; exact Or.inr rfl]

theorem callKinds_getPost_empty (w : World) (h : w.openaiApiKey = "") :
    callKinds (getPost w).1 = [] := by
  rcases getPost_fst w with h1 | ⟨e, h1⟩ <;>
    rw [h1, makeOpenAIRequest_fst, if_pos h] <;> rfl

theorem authenticate_fst (resp : Option HttpResult) (u p : String) :
    (authenticate resp u p).1 = [Ev.callAuth u p] ∨
    (authenticate resp u p).1 = [Ev.callAuth u p, Ev.print "Authentication successful!"] := by
  unfold authenticate
  rcases resp with _ | ⟨st, ab, eb⟩
  · exact Or.inl rfl
  · dsimp only
    split
    · rcases ab with _ | a
      · exact Or.inl rfl
      · exact Or.inr rfl
    · rcases eb with _ | e
      · exact Or.inl rfl
      · exact Or.inl rfl

theorem callKinds_authenticate (resp : Option HttpResult) (u p : String) :
    callKinds (authenticate resp u p).1 = [1] := by
  rcases authenticate_fst resp u p with h | h <;> rw [h] <;> rfl

theorem postMessage_fst (resp : Option HttpResult) (t : Int) (tok did msg : String) :
    (postMessage resp t tok did msg).1 =
      Ev.callPost tok (postBodyJson did msg (formatRFC3339 t)) ::
        (postMessage resp t tok did msg).1.tail := by
  unfold postMessage
  rcases resp with _ | ⟨st, ab, eb⟩
  · rfl
  · dsimp only
    split
    · rfl
    · rcases eb with _ | e <;> rfl

theorem callKinds_postMessage (resp : Option HttpResult) (t : Int) (tok did msg : String) :
    callKinds (postMessage resp t tok did msg).1 = [2] := by
  unfold postMessage
  rcases resp with _ | ⟨st, ab, eb⟩
  · rfl
  · dsimp only
    split
    · rfl
    · rcases eb with _ | e <;> rfl

/-! ### Claim C4 -/

/-- Claim C4: `authenticate`, on an HTTP 200 response, returns exactly the
decoded `accessJwt` and `did`; on any non-200 status it returns an error
carrying the numeric status code and the decoded `error` and `message`
fields verbatim; if that error body cannot be decoded it returns a decode
error instead; and it never returns the session values on a non-200
status. -/
theorem c4_authenticate_status_contract (r : HttpResult) (idf pw : String) :
    (∀ a, r.status = 200 → r.authBody = some a →
      (authenticate (some r) idf pw).2 = .ok a) ∧
    (∀ e, r.status ≠ 200 → r.errBody = some e →
      (authenticate (some r) idf pw).2 =
        .error (authErrMsg r.status e.error e.message)) ∧
    (r.status ≠ 200 → r.errBody = none →
      (authenticate (some r) idf pw).2 = .error "failed to decode error response") ∧
    (r.status ≠ 200 → ∀ a, (authenticate (some r) idf pw).2 ≠ .ok a) := by
  rcases r with ⟨st, ab, eb⟩
  refine ⟨?_, ?_, ?_, ?_⟩
  · intro a h200 hab
    simp only at h200 hab
    simp [authenticate, h200, hab]
  · intro e hne heb
    simp only at hne heb
    simp [authenticate, hne, heb]
  · intro hne heb
    simp only at hne heb
    simp [authenticate, hne, heb]
  · intro hne a
    simp only at hne
    simp only [authenticate, hne, if_neg hne]
    rcases eb with _ | e <;> simp

/-- Witness for C4 at a 200 response and at a 401 response with the error
body of end-to-end scenario 3. -/
theorem c4_authenticate_status_contract_witness :
    (authenticate (some ⟨200, some ⟨"jwt-token", "did:plc:abc"⟩, none⟩) "u" "p").2 =
      .ok ⟨"jwt-token", "did:plc:abc"⟩ ∧
    (authenticate (some ⟨401, none, some ⟨"InvalidCredentials", "bad password"⟩⟩) "u" "p").2 =
      .error (authErrMsg 401 "InvalidCredentials" "bad password") ∧
    (authenticate (some ⟨500, none, none⟩) "u" "p").2 =
      .error "failed to decode error response" :=
  ⟨(c4_authenticate_status_contract _ "u" "p").1 _ rfl rfl,
   (c4_authenticate_status_contract _ "u" "p").2.1 _ (by decide) rfl,
   (c4_authenticate_status_contract _ "u" "p").2.2.1 (by decide) rfl⟩

/-! ### Claim C8 -/

/-- Claim C8: for every message, access token and account identifier, the
JSON body built by `postMessage` (the wire body of its network call), when
re-decoded, reproduces exactly the shape
`{repo, collection: app.bsky.feed.post, record: {$type, text, createdAt}}`
with those field values, the decoder looking fields up by name
(order-insensitive round trip). -/
theorem c8_post_body_round_trip (resp : Option HttpResult) (t : Int)
    (tok did msg : String) :
    (postMessage resp t tok did msg).1.head? =
      some (Ev.callPost tok (postBodyJson did msg (formatRFC3339 t))) ∧
    decodePostBody (postBodyJson did msg (formatRFC3339 t)) =
      some ⟨did, "app.bsky.feed.post",
        ⟨"app.bsky.feed.post", msg, formatRFC3339 t⟩⟩ := by
  constructor
  · rw [postMessage_fst]; rfl
  · rfl

/-! ### Claim C1 -/

/-- Claim C1: for every startup instant strictly before the inauguration
threshold (2025-01-20 00:00 UTC), `getPost` builds the inauguration prompt
(template A), which names "January 20th, 2025"; for every instant on or
after the threshold it builds the term-end prompt (template B), which names
"January 20th, 2029". -/
theorem c1_prompt_template_selection (t : Int) :
    (t < inaugurationDate →
      buildPrompt t = promptA (formatLong t) ∧
      ∃ pre suf, (buildPrompt t).data = pre ++ "January 20th, 2025".data ++ suf) ∧
    (inaugurationDate ≤ t →
      buildPrompt t = promptB (formatLong t) ∧
      ∃ pre suf, (buildPrompt t).data = pre ++ "January 20th, 2029".data ++ suf) := by
  constructor
  · intro h
    have hb : buildPrompt t = promptA (formatLong t) := by
      rw [buildPrompt, if_pos h]
    refine ⟨hb, ?_⟩
    rw [hb]
    refine ⟨("Today is " ++ formatLong t ++
      ". Write a short, encouraging post about how many days are left until Trump\x27s inauguration. Include the exact number of days until ").data,
      ". Trump is not a good guy. Say something randomly positive to get people through this.".data, ?_⟩
    simp only [promptA, String.data_append, List.append_assoc]
  · intro h
    have hb : buildPrompt t = promptB (formatLong t) := by
      rw [buildPrompt, if_neg (not_lt.mpr h)]
    refine ⟨hb, ?_⟩
    rw [hb]
    refine ⟨("Today is " ++ formatLong t ++
      ". Write a short, encouraging post about how many days are left of Trump\x27s 2nd term in office. Include the exact number of days until ").data,
      ". Trump is not a good guy. Say something randomly positive to get people through this.".data, ?_⟩
    simp only [promptB, String.data_append, List.append_assoc]

/-- Witness for C1 at the two end-to-end scenarios of the spec: 2024-06-01
(before the threshold) and 2026-03-15 (after it). -/
theorem c1_prompt_template_selection_witness :
    (timeDate 2024 6 1 < inaugurationDate ∧
      buildPrompt (timeDate 2024 6 1) = promptA (formatLong (timeDate 2024 6 1))) ∧
    (inaugurationDate ≤ timeDate 2026 3 15 ∧
      buildPrompt (timeDate 2026 3 15) = promptB (formatLong (timeDate 2026 3 15))) :=
  ⟨⟨by decide, ((c1_prompt_template_selection (timeDate 2024 6 1)).1 (by decide)).1⟩,
   ⟨by decide, ((c1_prompt_template_selection (timeDate 2026 3 15)).2 (by decide)).1⟩⟩

/-! ### Claim C2 -/

/-- Counterexample to claim C2 as stated.  First: at the cutoff instant
itself (2029-01-20 00:00:00 UTC, a startup date on the threshold) the
program does not exit immediately — the check is the strict
`now.After(exitDate)` — and with everything configured it performs network
calls.  Second: a development run past the cutoff whose `.env` load fails
exits non-zero, because the `.env` load precedes the cutoff check. -/
theorem c2_counterexample :
    (exitDate ≤ wBoundary.now ∧ callKinds (main wBoundary).1 ≠ []) ∧
    (exitDate ≤ wEnvFail.now ∧ (main wEnvFail).2 ≠ 0) := by
  exact ⟨⟨by decide, by decide⟩, ⟨by decide, by decide⟩⟩

/-- Claim C2 amended: for every run whose startup instant is strictly after
the cutoff 2029-01-20 00:00 UTC and which passes the `.env` load step
(production environment, or a loadable `.env`), the program performs no
network calls and exits zero immediately. -/
theorem c2_retirement_noop (w : World)
    (henv : w.environment = "production" ∨ w.dotenvOk = true)
    (hdate : exitDate < w.now) :
    main w = ([], 0) := by
  unfold main
  rw [if_neg (by rcases henv with h | h <;> simp [h]), if_pos hdate]

/-- Witness for the amended C2: a production run on 2029-01-21. -/
theorem c2_retirement_noop_witness :
    exitDate < wRetired.now ∧ main wRetired = ([], 0) :=
  ⟨by decide, c2_retirement_noop wRetired (Or.inl rfl) (by decide)⟩

/-! ### Claim C10 -/

/-- Claim C10: when ENVIRONMENT is not "production" and the `.env` file
cannot be loaded, the run exits non-zero via a fatal log before the
retirement-date check: the result does not depend on the date at all, so
even on a date past the 2029-01-20 cutoff such a run does not exit zero
(and makes no network calls). -/
theorem c10_dotenv_failure_precedes_cutoff (w : World)
    (henv : w.environment ≠ "production") (hload : w.dotenvOk = false) :
    main w = ([Ev.logFatal "Error loading .env file"], 1) := by
  unfold main
  rw [if_pos ⟨henv, hload⟩]

/-- Witness for C10: a development run dated 2030-01-01, past the cutoff,
with a failing `.env` load, exiting 1. -/
theorem c10_dotenv_failure_precedes_cutoff_witness :
    wEnvFail.environment ≠ "production" ∧ wEnvFail.dotenvOk = false ∧
    exitDate < wEnvFail.now ∧
    main wEnvFail = ([Ev.logFatal "Error loading .env file"], 1) :=
  ⟨by decide, rfl, by decide,
    c10_dotenv_failure_precedes_cutoff wEnvFail (by decide) rfl⟩

/-! ### Claim C3 -/

/-- Counterexample to claim C3 as stated.  First: a run with only the
text-generation API key absent does not halt at all — it exits zero having
made the two Bluesky network calls (the generation error is non-fatal).
Second: a run with the account identifier absent does halt, but only after
the generation network call has been made. -/
theorem c3_counterexample :
    (wNoAIKey.openaiApiKey = "" ∧ (main wNoAIKey).2 = 0 ∧
      callKinds (main wNoAIKey).1 ≠ []) ∧
    (wNoUser.blueskyUsername = "" ∧ callKinds (main wNoUser).1 ≠ []) :=
  ⟨⟨rfl, by decide, by decide⟩, ⟨rfl, by decide⟩⟩

/-- Claim C3 amended: in a run that reaches the credential checks (the
`.env` load step passes and the date is not past the cutoff), an absent
account identifier or account secret halts the run fatally before any
network call to the social-networking service: exit code 1, no
session-creation call (kind 1) and no record-creation call (kind 2) — only
the generation call may already have happened, and none at all when the
text-generation API key is also absent.  An absent text-generation API key
by itself makes `makeOpenAIRequest` fail fast before its network call, but
does not halt the run. -/
theorem c3_missing_credentials (w : World)
    (henv : w.environment = "production" ∨ w.dotenvOk = true)
    (hdate : ¬ exitDate < w.now)
    (hcred : w.blueskyUsername = "" ∨ w.blueskyPassword = "") :
    (main w).2 = 1 ∧
    (1 : Nat) ∉ callKinds (main w).1 ∧
    (2 : Nat) ∉ callKinds (main w).1 ∧
    (w.openaiApiKey = "" → callKinds (main w).1 = []) ∧
    (∀ resp p, makeOpenAIRequest "" resp p =
      ([], .error "OPENAI_API_KEY environment variable not set")) := by
  have hc1 : ¬(w.environment ≠ "production" ∧ w.dotenvOk = false) := by
    rcases henv with h | h <;> simp [h]
  have hmain : ∃ fatal, main w =
      ((getPost w).1 ++ [Ev.print ("Generated post: " ++ (getPost w).2),
        Ev.logFatal fatal], 1) := by
    by_cases hu : w.blueskyUsername = ""
    · refine ⟨"BLUESKY_USERNAME environment variable not set", ?_⟩
      unfold main
      rw [if_neg hc1, if_neg hdate]
      dsimp only
      rw [if_pos hu, List.append_assoc]
      rfl
    · have hp : w.blueskyPassword = "" := by
        rcases hcred with h | h
        · exact absurd h hu
        · exact h
      refine ⟨"BLUESKY_PASSWORD environment variable not set", ?_⟩
      unfold main
      rw [if_neg hc1, if_neg hdate]
      dsimp only
      rw [if_neg hu, if_pos hp, List.append_assoc]
      rfl
  rcases hmain with ⟨fatal, hmain⟩
  have hkinds : callKinds (main w).1 = callKinds (getPost w).1 := by
    rw [hmain]
    dsimp only
    rw [callKinds_append]
    simp [callKinds, callRank]
  refine ⟨by rw [hmain], ?_, ?_, ?_, ?_⟩
  · rw [hkinds]
    rcases callKinds_getPost w with h | h <;> rw [h] <;> simp
  · rw [hkinds]
    rcases callKinds_getPost w with h | h <;> rw [h] <;> simp
  · intro hk
    rw [hkinds, callKinds_getPost_empty w hk]
  · intro resp p
    rfl

/-- Witness for the amended C3: a run on 2024-06-01 with the account
identifier and the API key both unset exits 1 without any network call. -/
theorem c3_missing_credentials_witness :
    (wNoUserNoKey.blueskyUsername = "" ∨ wNoUserNoKey.blueskyPassword = "") ∧
    (main wNoUserNoKey).2 = 1 ∧ callKinds (main wNoUserNoKey).1 = [] :=
  ⟨Or.inl rfl,
   (c3_missing_credentials wNoUserNoKey (Or.inl rfl) (by decide) (Or.inl rfl)).1,
   (c3_missing_credentials wNoUserNoKey (Or.inl rfl) (by decide)
     (Or.inl rfl)).2.2.2.1 rfl⟩

/-! ### Claim C5 -/

/-- Claim C5: on every generation failure (missing API key, transport
failure, non-200 status, malformed body, or zero completions — all the ways
`makeOpenAIRequest` can return an error), the run does not abort: the error
is logged non-fatally, `getPost` returns the empty string, and — whenever
the run then reaches publication — the empty message is passed unchanged to
the publisher, whose network call carries text "". -/
theorem c5_generation_failure_non_fatal (w : World) (e : String)
    (hgen : (makeOpenAIRequest w.openaiApiKey w.openaiResp (buildPrompt w.now)).2 =
      .error e) :
    (getPost w).2 = "" ∧
    Ev.logError ("Error getting AI response: " ++ e) ∈ (getPost w).1 ∧
    ((w.environment = "production" ∨ w.dotenvOk = true) → ¬ exitDate < w.now →
      w.blueskyUsername ≠ "" → w.blueskyPassword ≠ "" →
      ∀ a, (authenticate w.authResp w.blueskyUsername w.blueskyPassword).2 = .ok a →
        Ev.callPost a.accessJwt (postBodyJson a.did "" (formatRFC3339 w.postTime)) ∈
          (main w).1) := by
  have hgp : getPost w =
      ((makeOpenAIRequest w.openaiApiKey w.openaiResp (buildPrompt w.now)).1 ++
        [Ev.logError ("Error getting AI response: " ++ e)], "") := by
    simp only [getPost, hgen]
  refine ⟨by rw [hgp], by rw [hgp]; simp, ?_⟩
  intro henv hdate hu hp a hauth
  have hc1 : ¬(w.environment ≠ "production" ∧ w.dotenvOk = false) := by
    rcases henv with h | h <;> simp [h]
  have hmem : Ev.callPost a.accessJwt (postBodyJson a.did "" (formatRFC3339 w.postTime)) ∈
      (postMessage w.postResp w.postTime a.accessJwt a.did (getPost w).2).1 := by
    have h2 : (getPost w).2 = "" := by rw [hgp]
    rw [h2, postMessage_fst]
    exact List.mem_cons_self _ _
  unfold main
  rw [if_neg hc1, if_neg hdate]
  dsimp only
  rw [if_neg hu, if_neg hp]
  simp only [hauth]
  rcases hpost : (postMessage w.postResp w.postTime a.accessJwt a.did (getPost w).2).2
    with pe | pu <;> simp only [hpost] <;> simp [hmem]

/-- Witness for C5: a run on 2024-06-01 whose API key is unset logs the
generation error, generates the empty string and publishes it as-is. -/
theorem c5_generation_failure_non_fatal_witness :
    (getPost wGenFail).2 = "" ∧
    Ev.logError ("Error getting AI response: " ++
      "OPENAI_API_KEY environment variable not set") ∈ (getPost wGenFail).1 ∧
    Ev.callPost "jwt-token"
      (postBodyJson "did:plc:abc" "" (formatRFC3339 wGenFail.postTime)) ∈
      (main wGenFail).1 :=
  ⟨(c5_generation_failure_non_fatal wGenFail _ rfl).1,
   (c5_generation_failure_non_fatal wGenFail _ rfl).2.1,
   (c5_generation_failure_non_fatal wGenFail
      "OPENAI_API_KEY environment variable not set" rfl).2.2
     (Or.inl rfl) (by decide) (by decide) (by decide)
     ⟨"jwt-token", "did:plc:abc"⟩ rfl⟩

/-! ### Claim C6 -/

set_option maxHeartbeats 1600000 in
theorem monthDayOfDoy_bounds (doy : Nat) :
    1 ≤ (monthDayOfDoy doy).1 ∧ (monthDayOfDoy doy).1 ≤ 12 ∧
    1 ≤ (monthDayOfDoy doy).2 ∧ (monthDayOfDoy doy).2 ≤ 31 := by
  unfold monthDayOfDoy
  split_ifs <;> dsimp only <;> refine ⟨by omega, by omega, by omega, by omega⟩

theorem civilFromDays_bounds (z : Int) :
    1 ≤ (civilFromDays z).2.1 ∧ (civilFromDays z).2.1 ≤ 12 ∧
    1 ≤ (civilFromDays z).2.2 ∧ (civilFromDays z).2.2 ≤ 31 := by
  unfold civilFromDays
  dsimp only
  exact monthDayOfDoy_bounds _

theorem secOfDay_bounds (t : Int) : (Int.emod t 86400).toNat < 86400 := by
  have h1 : 0 ≤ Int.emod t 86400 := Int.emod_nonneg t (by norm_num)
  have h2 : Int.emod t 86400 < 86400 := Int.emod_lt_of_pos t (by norm_num)
  omega

/-- Claim C6: the `createdAt` of every record submitted by `postMessage` is
an RFC3339 UTC timestamp (date components in calendar range, time components
below 24/60/60, rendered in the `rfc3339Render` shape ending in "Z")
computed from the submission-time clock reading `tPost` (the fresh
`time.Now()` inside `postMessage`), and it differs from the formatted
startup timestamp whenever the two readings format differently. -/
theorem c6_createdAt_fresh_submission_time (resp : Option HttpResult)
    (tPost tStart : Int) (tok did msg : String) :
    (postMessage resp tPost tok did msg).1.head? =
      some (Ev.callPost tok (postBodyJson did msg (formatRFC3339 tPost))) ∧
    (decodePostBody (postBodyJson did msg (formatRFC3339 tPost))).map
      (fun b => b.record.createdAt) = some (formatRFC3339 tPost) ∧
    (∃ y mo d hh mi ss, 1 ≤ mo ∧ mo ≤ 12 ∧ 1 ≤ d ∧ d ≤ 31 ∧
      hh < 24 ∧ mi < 60 ∧ ss < 60 ∧
      formatRFC3339 tPost = rfc3339Render y mo d hh mi ss) ∧
    (formatRFC3339 tPost ≠ formatRFC3339 tStart →
      (decodePostBody (postBodyJson did msg (formatRFC3339 tPost))).map
        (fun b => b.record.createdAt) ≠ some (formatRFC3339 tStart)) := by
  have hdec : (decodePostBody (postBodyJson did msg (formatRFC3339 tPost))).map
      (fun b => b.record.createdAt) = some (formatRFC3339 tPost) := rfl
  refine ⟨by rw [postMessage_fst]; rfl, hdec, ?_, ?_⟩
  · obtain ⟨h1, h2, h3, h4⟩ := civilFromDays_bounds (Int.fdiv tPost 86400)
    have hs := secOfDay_bounds tPost
    exact ⟨(civilFromDays (Int.fdiv tPost 86400)).1.toNat,
      (civilFromDays (Int.fdiv tPost 86400)).2.1,
      (civilFromDays (Int.fdiv tPost 86400)).2.2,
      (Int.emod tPost 86400).toNat / 3600,
      (Int.emod tPost 86400).toNat % 3600 / 60,
      (Int.emod tPost 86400).toNat % 60,
      h1, h2, h3, h4, by omega, by omega, by omega, rfl⟩
  · intro hne h
    rw [hdec] at h
    exact hne (Option.some.inj h)

/-- Witness for C6 at a submission instant ten seconds after the startup
instant, where the two formatted timestamps differ. -/
theorem c6_createdAt_fresh_submission_time_witness :
    formatRFC3339 (timeDate 2024 6 1 + 10) ≠ formatRFC3339 (timeDate 2024 6 1) ∧
    (decodePostBody (postBodyJson "did:plc:abc" "hello"
        (formatRFC3339 (timeDate 2024 6 1 + 10)))).map
      (fun b => b.record.createdAt) ≠ some (formatRFC3339 (timeDate 2024 6 1)) :=
  ⟨by decide,
   (c6_createdAt_fresh_submission_time (some okPost) (timeDate 2024 6 1 + 10)
      (timeDate 2024 6 1) "jwt-token" "did:plc:abc" "hello").2.2.2 (by decide)⟩

/-! ### Claim C7 -/

theorem callKinds_print_nil (s : String) : callKinds [Ev.print s] = [] := rfl

theorem callKinds_logFatal_nil (s : String) : callKinds [Ev.logFatal s] = [] := rfl

/-- Claim C7: execution order is strictly sequential — in every run the
sequence of network-call kinds (0 = generation, 1 = session creation,
2 = record creation) is a sublist of [0, 1, 2], so generation always
precedes authentication, which always precedes publication, each at most
once; and in every run that reaches authentication and gets an error from
it, the run exits 1 with the fatal authentication log and no record-creation
call is ever made. -/
theorem c7_sequential_order_auth_fatal (w : World) :
    List.Sublist (callKinds (main w).1) [0, 1, 2] ∧
    (∀ e, (w.environment = "production" ∨ w.dotenvOk = true) → ¬ exitDate < w.now →
      w.blueskyUsername ≠ "" → w.blueskyPassword ≠ "" →
      (authenticate w.authResp w.blueskyUsername w.blueskyPassword).2 = .error e →
      (main w).2 = 1 ∧ (2 : Nat) ∉ callKinds (main w).1 ∧
        Ev.logFatal ("Authentication failed: " ++ e) ∈ (main w).1) := by
  constructor
  · by_cases h1 : w.environment ≠ "production" ∧ w.dotenvOk = false
    · unfold main
      rw [if_pos h1]
      exact (List.nil_sublist _)
    unfold main
    rw [if_neg h1]
    by_cases h2 : exitDate < w.now
    · rw [if_pos h2]
      exact (List.nil_sublist _)
    rw [if_neg h2]
    dsimp only
    by_cases hu : w.blueskyUsername = ""
    · rw [if_pos hu]
      simp only [callKinds_append, callKinds_print_nil, callKinds_logFatal_nil,
        List.append_nil]
      rcases callKinds_getPost w with h | h <;> rw [h] <;> decide
    rw [if_neg hu]
    by_cases hp : w.blueskyPassword = ""
    · rw [if_pos hp]
      simp only [callKinds_append, callKinds_print_nil, callKinds_logFatal_nil,
        List.append_nil]
      rcases callKinds_getPost w with h | h <;> rw [h] <;> decide
    rw [if_neg hp]
    rcases hA : (authenticate w.authResp w.blueskyUsername w.blueskyPassword).2
      with e | ar
    · simp only [hA]
      simp only [callKinds_append, callKinds_print_nil, callKinds_logFatal_nil,
        callKinds_authenticate, List.append_nil]
      rcases callKinds_getPost w with h | h <;> rw [h] <;> decide
    · simp only [hA]
      rcases hP : (postMessage w.postResp w.postTime ar.accessJwt ar.did
          (getPost w).2).2 with pe | pu <;>
        simp only [hP] <;>
        simp only [callKinds_append, callKinds_print_nil, callKinds_logFatal_nil,
          callKinds_authenticate, callKinds_postMessage, List.append_nil] <;>
        rcases callKinds_getPost w with h | h <;> rw [h] <;> decide
  · intro e henv hdate hu hp hauth
    have hc1 : ¬(w.environment ≠ "production" ∧ w.dotenvOk = false) := by
      rcases henv with h | h <;> simp [h]
    have hmain : main w = ((((getPost w).1 ++
        [Ev.print ("Generated post: " ++ (getPost w).2)]) ++
          (authenticate w.authResp w.blueskyUsername w.blueskyPassword).1) ++
          [Ev.logFatal ("Authentication failed: " ++ e)], 1) := by
      unfold main
      rw [if_neg hc1, if_neg hdate]
      dsimp only
      rw [if_neg hu, if_neg hp]
      simp only [hauth]
    refine ⟨by rw [hmain], ?_, ?_⟩
    · rw [hmain]
      dsimp only
      simp only [callKinds_append, callKinds_print_nil, callKinds_logFatal_nil,
        callKinds_authenticate, List.append_nil]
      rcases callKinds_getPost w with h | h <;> rw [h] <;> decide
    · rw [hmain]
      simp

/-- Witness for C7 at end-to-end scenario 3: a run on 2026-03-15 whose
authentication answers 401 InvalidCredentials exits 1 and never calls the
record-creation endpoint. -/
theorem c7_sequential_order_auth_fatal_witness :
    (main wAuth401).2 = 1 ∧ (2 : Nat) ∉ callKinds (main wAuth401).1 :=
  ⟨((c7_sequential_order_auth_fatal wAuth401).2
      (authErrMsg 401 "InvalidCredentials" "bad password")
      (Or.inl rfl) (by decide) (by decide) (by decide) rfl).1,
   ((c7_sequential_order_auth_fatal wAuth401).2
      (authErrMsg 401 "InvalidCredentials" "bad password")
      (Or.inl rfl) (by decide) (by decide) (by decide) rfl).2.1⟩

/-! ### Claim C9 -/

theorem authenticate_snd_indep (resp : Option HttpResult) (u1 p1 u2 p2 : String) :
    (authenticate resp u1 p1).2 = (authenticate resp u2 p2).2 := by
  unfold authenticate
  rcases resp with _ | ⟨st, ab, eb⟩
  · rfl
  · dsimp only
    split
    · rcases ab with _ | a <;> rfl
    · rcases eb with _ | e <;> rfl

theorem authenticate_output_indep (resp : Option HttpResult) (u1 p1 u2 p2 : String) :
    outputOf (authenticate resp u1 p1).1 = outputOf (authenticate resp u2 p2).1 := by
  unfold authenticate
  rcases resp with _ | ⟨st, ab, eb⟩
  · rfl
  · dsimp only
    split
    · rcases ab with _ | a <;> rfl
    · rcases eb with _ | e <;> rfl

/-- Claim C9: the credential values are never written to any log or to
standard output: two runs that differ only in the credential values (with
the same set/unset pattern — an unset credential changes which constant
fatal message is logged, not any value-derived text) produce identical
logged/printed output. -/
theorem c9_credentials_never_logged (w1 w2 : World)
    (he : w1.environment = w2.environment) (hd : w1.dotenvOk = w2.dotenvOk)
    (hk : w1.openaiApiKey = w2.openaiApiKey) (hn : w1.now = w2.now)
    (ht : w1.postTime = w2.postTime) (ho : w1.openaiResp = w2.openaiResp)
    (ha : w1.authResp = w2.authResp) (hpo : w1.postResp = w2.postResp)
    (hu : w1.blueskyUsername = "" ↔ w2.blueskyUsername = "")
    (hp : w1.blueskyPassword = "" ↔ w2.blueskyPassword = "") :
    outputOf (main w1).1 = outputOf (main w2).1 := by
  have hgp : getPost w1 = getPost w2 := by
    unfold getPost
    rw [hk, ho, hn]
  unfold main
  rw [he, hd, hn, ht, ha, hpo, hgp]
  by_cases h1 : w2.environment ≠ "production" ∧ w2.dotenvOk = false
  · rw [if_pos h1, if_pos h1]
  rw [if_neg h1, if_neg h1]
  by_cases h2 : exitDate < w2.now
  · rw [if_pos h2, if_pos h2]
  rw [if_neg h2, if_neg h2]
  dsimp only
  by_cases hu1 : w1.blueskyUsername = ""
  · rw [if_pos hu1, if_pos (hu.mp hu1)]
  rw [if_neg hu1, if_neg (fun h => hu1 (hu.mpr h))]
  by_cases hp1 : w1.blueskyPassword = ""
  · rw [if_pos hp1, if_pos (hp.mp hp1)]
  rw [if_neg hp1, if_neg (fun h => hp1 (hp.mpr h))]
  rcases hA : (authenticate w2.authResp w1.blueskyUsername w1.blueskyPassword).2
    with e | ar
  · have hA2 : (authenticate w2.authResp w2.blueskyUsername w2.blueskyPassword).2 =
        .error e := by
      rw [authenticate_snd_indep w2.authResp w2.blueskyUsername w2.blueskyPassword
        w1.blueskyUsername w1.blueskyPassword, hA]
    simp only [hA, hA2]
    simp only [outputOf_append]
    rw [authenticate_output_indep w2.authResp w1.blueskyUsername w1.blueskyPassword
      w2.blueskyUsername w2.blueskyPassword]
  · have hA2 : (authenticate w2.authResp w2.blueskyUsername w2.blueskyPassword).2 =
        .ok ar := by
      rw [authenticate_snd_indep w2.authResp w2.blueskyUsername w2.blueskyPassword
        w1.blueskyUsername w1.blueskyPassword, hA]
    simp only [hA, hA2]
    rcases hP : (postMessage w2.postResp w2.postTime ar.accessJwt ar.did
        (getPost w2).2).2 with pe | pu <;>
      simp only [hP] <;>
      simp only [outputOf_append] <;>
      rw [authenticate_output_indep w2.authResp w1.blueskyUsername w1.blueskyPassword
        w2.blueskyUsername w2.blueskyPassword]

/-- Witness for C9: two otherwise identical successful runs with different
credential values have identical output. -/
theorem c9_credentials_never_logged_witness :
    outputOf (main wCredsA).1 = outputOf (main wCredsB).1 :=
  c9_credentials_never_logged wCredsA wCredsB rfl rfl rfl rfl rfl rfl rfl rfl
    (by decide) (by decide)

end GoTrump
